import Mathlib

/-!
Verification of the virtual-plant simulation and renderer.

The simulation core lives in `plant.js` (duplicated, with a richer renderer,
in the unnamed app script): a `PlantState` record advanced by `tick`, user
actions (water / sunlight / reset), a stage table, an ETA estimate, and two
procedural renderers (pixel and ASCII), the pixel one with a seeded
xorshift32 vine generator.  JavaScript numbers are embedded as rationals;
the 32-bit integer RNG state is embedded as a natural number below 2^32 with
explicit reductions mod 2^32 at the points where JavaScript coerces to
int32.

Each definition mirrors the source function of the same name.
-/

namespace VirtualPlant

/-- `clamp(n, a, b)` from plant.js: `Math.max(a, Math.min(b, n))`. -/
def clamp (n a b : ℚ) : ℚ := max a (min b n)

/-- The persisted plant record (fields of `newPlant()` in plant.js).
Instants are in milliseconds, embedded as rationals. -/
structure PlantState where
  createdAt : ℚ
  lastTickAt : ℚ
  growth : ℚ
  hydration : ℚ
  health : ℚ
  lastActionAt : ℚ
  sunlightBoostUntil : ℚ
deriving Repr, DecidableEq

/-- `newPlant()` from plant.js, with the current time `t` passed explicitly
in place of `nowMs()`. -/
def newPlant (t : ℚ) : PlantState :=
  { createdAt := t
    lastTickAt := t
    growth := 0
    hydration := 70
    health := 85
    lastActionAt := t
    sunlightBoostUntil := 0 }

/-- The `STAGES` table from plant.js: name and growth threshold (`need`). -/
def STAGES : List (String × ℚ) :=
  [("Seed", 0), ("Sprout", 15), ("Stem", 45), ("Leaves", 90),
   ("Bushy", 150), ("Flower", 230)]

/-- `BASE_GROWTH_PER_HOUR` from plant.js. -/
def BASE_GROWTH_PER_HOUR : ℚ := 6

/-- `STAGES[i].need`, with the out-of-range default that never occurs in the
source's in-range accesses. -/
def stageNeed (i : ℕ) : ℚ := (STAGES.getD i ("", 0)).2

/-- `stageFromGrowth(growth)` from plant.js: a loop over the stage table
keeping the last index whose threshold is met. -/
def stageFromGrowth (growth : ℚ) : ℕ :=
  (List.range STAGES.length).foldl
    (fun idx i => if stageNeed i ≤ growth then i else idx) 0

/-- `nextStageNeed(growth)` from plant.js. -/
def nextStageNeed (growth : ℚ) : ℚ :=
  stageNeed (min (stageFromGrowth growth + 1) (STAGES.length - 1))

/-- `tick(state, timeScale)` from plant.js, with the current time `t` passed
explicitly in place of `nowMs()`.  Order of updates follows the source:
hydration first, then health from the already-updated hydration, then
growth from the updated hydration and health. -/
def tick (state : PlantState) (timeScale : ℚ) (t : ℚ) : PlantState :=
  let dtMs := max 0 (t - state.lastTickAt) * timeScale
  let hours := dtMs / (1000 * 60 * 60)
  let hydration1 := clamp (state.hydration - hours * 8) 0 100
  let delta := (hydration1 - 55) / 55
  let health1 := clamp (state.health + hours * (delta * 10)) 0 100
  let sunBoost : ℚ := if t < state.sunlightBoostUntil then 1.35 else 1.0
  let hydrationFactor := clamp (hydration1 / 80) 0 1.2
  let healthFactor := clamp (health1 / 85) 0 1.2
  let rate := BASE_GROWTH_PER_HOUR * hydrationFactor * healthFactor * sunBoost
  let growth1 := max 0 (state.growth + hours * rate)
  { state with
      lastTickAt := t
      hydration := hydration1
      health := health1
      growth := growth1 }

/-- The water-button handler's instantaneous state adjustment (main() in
plant.js), before the `doTick()` it triggers. -/
def waterAction (state : PlantState) (t : ℚ) : PlantState :=
  { state with
      hydration := clamp (state.hydration + 25) 0 100
      health := clamp (state.health + 4) 0 100
      lastActionAt := t }

/-- The sunlight-button handler's instantaneous state adjustment (main() in
plant.js), before the `doTick()` it triggers. -/
def sunAction (state : PlantState) (t : ℚ) : PlantState :=
  { state with
      sunlightBoostUntil := t + 1000 * 60 * 30
      health := clamp (state.health + 2) 0 100
      lastActionAt := t }

/-- The three possible next-stage displays computed in render(). -/
inductive EtaDisplay where
  | maxStage
  | needsCare
  | eta (ms : ℚ)
deriving Repr, DecidableEq

/-- The instantaneous growth-rate recomputation in render(): the same
factor formulas as tick, evaluated on the current state at time `t`. -/
def renderRate (state : PlantState) (t : ℚ) : ℚ :=
  let hydrationFactor := clamp (state.hydration / 80) 0 1.2
  let healthFactor := clamp (state.health / 85) 0 1.2
  let sunBoost : ℚ := if t < state.sunlightBoostUntil then 1.35 else 1.0
  BASE_GROWTH_PER_HOUR * hydrationFactor * healthFactor * sunBoost

/-- The next-stage display logic of render(): `Max stage` at the last
stage, otherwise the formatted `remaining / rate` duration when
`rate > 0.2`, otherwise the needs-care indication. -/
def etaDisplay (state : PlantState) (t : ℚ) : EtaDisplay :=
  let stageIdx := stageFromGrowth state.growth
  let remaining := max 0 (nextStageNeed state.growth - state.growth)
  let rate := renderRate state t
  if stageIdx = STAGES.length - 1 then .maxStage
  else if 0.2 < rate then .eta (remaining / rate * 3600 * 1000)
  else .needsCare

/-- A placed pixel block: one `px(x, y, color)` call in drawPlant. -/
structure Px where
  x : ℤ
  y : ℤ
  color : String
deriving Repr, DecidableEq

/-- 2^32, the wrap modulus of the JavaScript 32-bit bitwise operations. -/
def UINT32 : ℕ := 4294967296

/-- One advance of drawPlant's xorshift32 generator:
`seed ^= seed << 13; seed |= 0; seed ^= seed >>> 17; seed ^= seed << 5;
seed |= 0`, acting on 32-bit patterns. -/
def xorshift32 (s : ℕ) : ℕ :=
  let s1 := Nat.xor s (s * 2 ^ 13 % UINT32) % UINT32
  let s2 := Nat.xor s1 (s1 / 2 ^ 17)
  Nat.xor s2 (s2 * 2 ^ 5 % UINT32) % UINT32

/-- `rand()` from drawPlant: advance the seed, return
`(seed >>> 0) / 4294967296` together with the new seed. -/
def randStep (s : ℕ) : ℚ × ℕ :=
  let s1 := xorshift32 s
  ((s1 : ℚ) / (UINT32 : ℚ), s1)

/-- drawPlant's seed initialisation:
`Math.floor((state.createdAt || 0) / 1000) ^ 0x9e3779b9` on 32-bit
patterns. -/
def initialSeed (createdAt : ℚ) : ℕ :=
  Nat.xor (⌊createdAt / 1000⌋ % (UINT32 : ℤ)).toNat 0x9e3779b9

/-- drawPlant's leaf colour (`green`), selected by health band. -/
def greenColor (health : ℚ) : String :=
  if 60 < health then "#68e36b" else if 35 < health then "#b6df5a"
  else "#d6c56b"

/-- drawPlant's stem colour (`dark`), selected by health band. -/
def darkColor (health : ℚ) : String :=
  if 60 < health then "#2ea84a" else if 35 < health then "#7aa63b"
  else "#9a8e39"

/-- drawPlant's flower colour. -/
def flowerColor : String := "#ff7ad9"

/-- The fixed pot pixels of drawPlant, in draw order. -/
def potPixels : List Px :=
  ((List.range 8).flatMap fun dx => (List.range 2).map fun dy =>
      ⟨7 + (dx : ℤ), 15 + (dy : ℤ), "#c56b3c"⟩) ++
  ((List.range 10).map fun dx => ⟨6 + (dx : ℤ), 17, "#9f4d24"⟩) ++
  ((List.range 8).map fun dx => ⟨7 + (dx : ℤ), 18, "#9f4d24"⟩)

/-- drawPlant's stem pixels: x = 11, from y = 14 down to
`stemTop = 14 − min(stageIdx·2, 10)`. -/
def stemPixels (stageIdx : ℕ) (dark : String) : List Px :=
  (List.range (min (stageIdx * 2) 10 + 1)).map fun k =>
    ⟨11, (14 : ℤ) - (k : ℤ), dark⟩

/-- `addLeaf(cx, cy, dir)` from drawPlant: four green pixels. -/
def addLeaf (cx cy dir : ℤ) (green : String) : List Px :=
  [⟨cx + 0 * dir, cy, green⟩, ⟨cx + 1 * dir, cy, green⟩,
   ⟨cx + 2 * dir, cy + 1, green⟩, ⟨cx + 1 * dir, cy + 1, green⟩]

/-- The leaf pixels drawPlant adds by stage: thresholds 2, 3 and 4, each
adding a left (dir = −1) then a right (dir = 1) leaf. -/
def leafPixels (stageIdx : ℕ) (green : String) : List Px :=
  (if 2 ≤ stageIdx then addLeaf 11 12 (-1) green ++ addLeaf 11 11 1 green
   else []) ++
  (if 3 ≤ stageIdx then addLeaf 11 10 (-1) green ++ addLeaf 11 9 1 green
   else []) ++
  (if 4 ≤ stageIdx then addLeaf 11 8 (-1) green ++ addLeaf 11 7 1 green
   else [])

/-- `clamp` as applied to the integer vine coordinates in drawPlant. -/
def clampZ (n a b : ℤ) : ℤ := max a (min b n)

/-- The threaded state of drawVine's loop: cursor position, RNG seed and
pixels emitted so far. -/
structure VineSt where
  x : ℤ
  y : ℤ
  seed : ℕ
  pixels : List Px
deriving Repr, DecidableEq

/-- One iteration of drawVine's loop, consuming `rand()` draws in source
order: sideways drift, upward drift, the vine pixel, an occasional vine
leaf (one more draw for its y offset), and — only at the final stage — an
occasional blossom. -/
def vineStep (stageIdx : ℕ) (side : ℤ) (vineColor vineLeaf : String)
    (st : VineSt) : VineSt :=
  let (r1, s1) := randStep st.seed
  let drift : ℤ := if r1 < 0.55 then side else 0
  let x := clampZ (st.x + drift) 0 21
  let (r2, s2) := randStep s1
  let y := clampZ (st.y - (if r2 < 0.75 then 1 else 0)) 0 18
  let p1 := st.pixels ++ [⟨x, y, vineColor⟩]
  let (r3, s3) := randStep s2
  let (p2, s4) :=
    if r3 < 0.33 then
      let (r4, s4) := randStep s3
      (p1 ++ [⟨clampZ (x + side) 0 21,
              clampZ (y + (if r4 < 0.5 then 0 else 1)) 0 19, vineLeaf⟩], s4)
    else (p1, s3)
  let (p3, s5) :=
    if 5 ≤ stageIdx then
      let (r5, s5) := randStep s4
      if r5 < 0.10 then
        (p2 ++ [⟨clampZ x 0 21, clampZ (y - 1) 0 19, flowerColor⟩], s5)
      else (p2, s5)
    else (p2, s4)
  ⟨x, y, s5, p3⟩

/-- `drawVine(side)` from drawPlant: one draw for the jittered length,
then the loop, starting at `(stemX + side, 12)`. -/
def drawVine (stageIdx : ℕ) (side : ℤ) (vineColor vineLeaf : String)
    (seed : ℕ) : List Px × ℕ :=
  let (r, s1) := randStep seed
  let len := 10 + (⌊r * 6⌋).toNat + (if 5 ≤ stageIdx then 4 else 0)
  let res := (List.range len).foldl
    (fun st _ => vineStep stageIdx side vineColor vineLeaf st)
    ⟨11 + side * 1, 12, s1, []⟩
  (res.pixels, res.seed)

/-- The vine pixels of drawPlant (stage ≥ 4): left vine then right vine,
the seed advancing across both. -/
def vinePixels (stageIdx : ℕ) (vineColor vineLeaf : String) (seed : ℕ) :
    List Px × ℕ :=
  if 4 ≤ stageIdx then
    let (pL, s1) := drawVine stageIdx (-1) vineColor vineLeaf seed
    let (pR, s2) := drawVine stageIdx 1 vineColor vineLeaf s1
    (pL ++ pR, s2)
  else ([], seed)

/-- drawPlant's flower cluster at the final stage, around the stem tip. -/
def flowerPixels (stageIdx : ℕ) : List Px :=
  if 5 ≤ stageIdx then
    let stemTop : ℤ := 14 - (min (stageIdx * 2) 10 : ℕ)
    [⟨11, stemTop - 1, flowerColor⟩, ⟨10, stemTop, flowerColor⟩,
     ⟨12, stemTop, flowerColor⟩, ⟨11, stemTop + 1, flowerColor⟩]
  else []

/-- drawPlant's sparkle overlay, drawn when health > 90 and
hydration > 70 (read directly off the state). -/
def sparklePixels (health hydration : ℚ) : List Px :=
  if 90 < health ∧ 70 < hydration then
    [⟨3, 3, "#ffffff"⟩, ⟨4, 3, "#6bd7ff"⟩, ⟨3, 4, "#6bd7ff"⟩]
  else []

/-- `drawPlant(stageIdx, state)` from the app script: the emitted pixel
blocks in source order — pot, stem, leaves, vines, flower, sparkle — with
the vine RNG seeded from `createdAt` alone. -/
def drawPlant (stageIdx : ℕ) (state : PlantState) : List Px :=
  let health := clamp state.health 0 100
  let green := greenColor health
  let dark := darkColor health
  let seed0 := initialSeed state.createdAt
  let (vines, _) := vinePixels stageIdx dark green seed0
  potPixels ++ stemPixels stageIdx dark ++ leafPixels stageIdx green ++
    vines ++ flowerPixels stageIdx ++
    sparklePixels state.health state.hydration

/-- The `leaf(y, dir)` helper of drawAsciiPlant: a direction glyph beside
the stem (x = 16) and a dash one cell further out. -/
def asciiLeaf (y dir : ℤ) : List (ℤ × ℤ × Char) :=
  [(16 + dir, y, if dir < 0 then '<' else '>'), (16 + dir * 2, y, '-')]

/-- The leaf cells drawAsciiPlant places by stage: thresholds 1, 2 and 3,
each adding a left (dir = −1) then a right (dir = 1) leaf. -/
def asciiLeafCells (stageIdx : ℕ) : List (ℤ × ℤ × Char) :=
  (if 1 ≤ stageIdx then asciiLeaf 11 (-1) ++ asciiLeaf 10 1 else []) ++
  (if 2 ≤ stageIdx then asciiLeaf 9 (-1) ++ asciiLeaf 8 1 else []) ++
  (if 3 ≤ stageIdx then asciiLeaf 7 (-1) ++ asciiLeaf 6 1 else [])

/-- JSON values, as produced by the host `JSON.parse`. -/
inductive JsValue where
  | null
  | bool (b : Bool)
  | num (q : ℚ)
  | str (s : String)
  | arr (elems : List JsValue)
  | obj (fields : List (String × JsValue))

/-- JavaScript truthiness of a parsed JSON value, as consulted by the
`loadState() || newPlant()` startup expression. -/
def jsTruthy : JsValue → Bool
  | .null => false
  | .bool b => b
  | .num q => decide (q ≠ 0)
  | .str s => !s.data.isEmpty
  | .arr _ => true
  | .obj _ => true

/-- `loadState()` from plant.js, with the stored record and the JSON parse
function passed explicitly.  `none` models the JS `null` return: a missing
record (`getItem` returned null), an empty string (`!raw`), or a parse
exception caught by the try/catch.  Otherwise the parsed value is returned
without any validation. -/
def loadState (store : Option String)
    (parse : String → Except Unit JsValue) : Option JsValue :=
  match store with
  | none => none
  | some raw =>
    if raw.data.isEmpty then none
    else
      match parse raw with
      | .ok v => some v
      | .error _ => none

/-- The startup state selection in main(): `loadState() || newPlant()`.
A truthy loaded value is used as-is (left injection); anything else is
replaced by a fresh plant (right injection). -/
def startupState (store : Option String)
    (parse : String → Except Unit JsValue) (t : ℚ) : JsValue ⊕ PlantState :=
  match loadState store parse with
  | some v => if jsTruthy v then Sum.inl v else Sum.inr (newPlant t)
  | none => Sum.inr (newPlant t)

/-- The numeric value of a string of decimal digits. -/
def digitsToNat (cs : List Char) : ℕ :=
  cs.foldl (fun acc c => 10 * acc + (c.toNat - 48)) 0

/-- Modelled from the spec: the host `JSON.parse` builtin called by
loadState is a platform function, not repository source; it is modelled on
the fragment exercised here — strings of decimal digits parse to the
corresponding number, `"null"` parses to JSON null, and anything else
raises a parse error. -/
def jsonParseFrag (s : String) : Except Unit JsValue :=
  if s = "null" then .ok .null
  else if !s.data.isEmpty && s.data.all Char.isDigit then
    .ok (.num (digitsToNat s.data))
  else .error ()

/-- Hydration and health within their documented [0,100] ranges. -/
def vitalsInRange (s : PlantState) : Prop :=
  0 ≤ s.hydration ∧ s.hydration ≤ 100 ∧ 0 ≤ s.health ∧ s.health ≤ 100

theorem clamp_lb (n a b : ℚ) : a ≤ clamp n a b := le_max_left a (min b n)

theorem clamp_ub (n a b : ℚ) (h : a ≤ b) : clamp n a b ≤ b :=
  max_le h (min_le_left b n)

theorem clamp_of_mem (n a b : ℚ) (h0 : a ≤ n) (h1 : n ≤ b) : clamp n a b = n := by
  unfold clamp
  rw [min_eq_right h1, max_eq_right h0]

theorem growth_le_max_add (g h r : ℚ) (hh : 0 ≤ h) (hr : 0 ≤ r) :
    g ≤ max 0 (g + h * r) :=
  le_trans (le_add_of_nonneg_right (mul_nonneg hh hr)) (le_max_right _ _)

/-- Closed form of the stage loop over the concrete stage table. -/
theorem stageFromGrowth_unfold (g : ℚ) :
    stageFromGrowth g =
      if 230 ≤ g then 5 else if 150 ≤ g then 4 else if 90 ≤ g then 3
      else if 45 ≤ g then 2 else if 15 ≤ g then 1 else if 0 ≤ g then 0
      else 0 := rfl

example : stageFromGrowth 150 = 4 := by decide
example : stageFromGrowth 149 = 3 := by decide
example : stageFromGrowth 0 = 0 := by decide
example : stageFromGrowth 230 = 5 := by decide

theorem tick_vitals (s : PlantState) (timeScale t : ℚ) :
    vitalsInRange (tick s timeScale t) := by
  unfold vitalsInRange
  refine ⟨?_, ?_, ?_, ?_⟩ <;> simp only [tick] <;>
    first
      | exact clamp_lb _ _ _
      | exact clamp_ub _ _ _ (by norm_num)

theorem water_vitals (s : PlantState) (t : ℚ) :
    vitalsInRange (waterAction s t) := by
  unfold vitalsInRange
  refine ⟨?_, ?_, ?_, ?_⟩ <;> simp only [waterAction] <;>
    first
      | exact clamp_lb _ _ _
      | exact clamp_ub _ _ _ (by norm_num)

theorem sun_vitals (s : PlantState) (t : ℚ)
    (hh0 : 0 ≤ s.hydration) (hh1 : s.hydration ≤ 100) :
    vitalsInRange (sunAction s t) := by
  unfold vitalsInRange
  refine ⟨?_, ?_, ?_, ?_⟩ <;> simp only [sunAction] <;>
    first
      | assumption
      | exact clamp_lb _ _ _
      | exact clamp_ub _ _ _ (by norm_num)

theorem newPlant_vitals (t : ℚ) : vitalsInRange (newPlant t) := by
  unfold vitalsInRange newPlant
  norm_num

/-- C1: for every PlantState whose hydration and health lie in [0,100],
tick/advance (with non-negative elapsed time and positive time scale), the
water action, the sunlight action, and reset (newPlant) each produce a
state whose hydration and health again lie in [0,100]. -/
theorem C1_ops_preserve_vitals (s : PlantState) (timeScale t : ℚ)
    (hh0 : 0 ≤ s.hydration) (hh1 : s.hydration ≤ 100)
    (he0 : 0 ≤ s.health) (he1 : s.health ≤ 100)
    (helapsed : s.lastTickAt ≤ t) (hscale : 0 < timeScale) :
    vitalsInRange (tick s timeScale t) ∧ vitalsInRange (waterAction s t) ∧
      vitalsInRange (sunAction s t) ∧ vitalsInRange (newPlant t) :=
  ⟨tick_vitals s timeScale t, water_vitals s t, sun_vitals s t hh0 hh1,
    newPlant_vitals t⟩

theorem C1_witness :
    ((0 : ℚ) ≤ (newPlant 0).hydration ∧ (newPlant 0).hydration ≤ 100 ∧
      (0 : ℚ) ≤ (newPlant 0).health ∧ (newPlant 0).health ≤ 100 ∧
      (newPlant 0).lastTickAt ≤ 0 ∧ (0 : ℚ) < 1) ∧
    (vitalsInRange (tick (newPlant 0) 1 0) ∧ vitalsInRange (waterAction (newPlant 0) 0) ∧
      vitalsInRange (sunAction (newPlant 0) 0) ∧ vitalsInRange (newPlant 0)) :=
  ⟨by refine ⟨?_, ?_, ?_, ?_, ?_, ?_⟩ <;> decide,
   C1_ops_preserve_vitals (newPlant 0) 1 0 (by decide) (by decide) (by decide)
     (by decide) (by decide) (by decide)⟩

/-- C2: for every PlantState with growth ≥ 0 and hydration, health in
[0,100], and every non-negative elapsed time and positive time scale, the
growth field after tick is ≥ its value before the call. -/
theorem C2_growth_monotone (s : PlantState) (timeScale t : ℚ)
    (hg : 0 ≤ s.growth)
    (hh0 : 0 ≤ s.hydration) (hh1 : s.hydration ≤ 100)
    (he0 : 0 ≤ s.health) (he1 : s.health ≤ 100)
    (helapsed : s.lastTickAt ≤ t) (hscale : 0 < timeScale) :
    s.growth ≤ (tick s timeScale t).growth := by
  simp only [tick]
  refine growth_le_max_add _ _ _ ?_ ?_
  · exact div_nonneg (mul_nonneg (le_max_left 0 _) hscale.le) (by norm_num)
  · refine mul_nonneg (mul_nonneg (mul_nonneg ?_ (clamp_lb _ _ _)) (clamp_lb _ _ _)) ?_
    · norm_num [BASE_GROWTH_PER_HOUR]
    · split <;> norm_num

theorem C2_witness :
    ((0 : ℚ) ≤ (newPlant 0).growth ∧ (0 : ℚ) ≤ (newPlant 0).hydration ∧
      (newPlant 0).hydration ≤ 100 ∧ (0 : ℚ) ≤ (newPlant 0).health ∧
      (newPlant 0).health ≤ 100 ∧ (newPlant 0).lastTickAt ≤ 3600000 ∧ (0 : ℚ) < 1) ∧
    (newPlant 0).growth ≤ (tick (newPlant 0) 1 3600000).growth :=
  ⟨by refine ⟨?_, ?_, ?_, ?_, ?_, ?_, ?_⟩ <;> decide,
   C2_growth_monotone (newPlant 0) 1 3600000 (by decide) (by decide) (by decide)
     (by decide) (by decide) (by decide) (by decide)⟩

/-- C3: from the fresh plant, advancing exactly 1 hour at time scale 1
yields hydration 62, health 85 + ((62 − 55)/55)·10 (the health update uses
the hydration already updated within the same tick), and strictly positive
growth. -/
theorem C3_fresh_one_hour :
    (tick (newPlant 0) 1 3600000).hydration = 62 ∧
    (tick (newPlant 0) 1 3600000).health = 85 + ((62 - 55) / 55) * 10 ∧
    0 < (tick (newPlant 0) 1 3600000).growth := by
  norm_num [tick, newPlant, clamp, BASE_GROWTH_PER_HOUR, min_def, max_def]

/-- C4: for growth ≥ 0, stageFromGrowth is the largest stage index whose
threshold is ≤ growth; growth exactly 150 yields index 4 ("Bushy"); and
stageFromGrowth is monotone non-decreasing. -/
theorem C4_stage_characterization (g g2 : ℚ) (hg : 0 ≤ g) (hmono : g ≤ g2) :
    (stageNeed (stageFromGrowth g) ≤ g ∧
      ∀ i, i < STAGES.length → stageNeed i ≤ g → i ≤ stageFromGrowth g) ∧
    stageFromGrowth 150 = 4 ∧
    stageFromGrowth g ≤ stageFromGrowth g2 := by
  refine ⟨⟨?_, ?_⟩, by decide, ?_⟩
  · rw [stageFromGrowth_unfold]
    split_ifs <;> simp only [stageNeed, STAGES, List.getD] <;>
      norm_num <;> linarith
  · intro i hi hneed
    rw [stageFromGrowth_unfold]
    have hi6 : i < 6 := by simpa [STAGES] using hi
    interval_cases i <;>
      simp only [stageNeed, STAGES, List.getD] at hneed <;>
      norm_num at hneed ⊢ <;>
      split_ifs <;> first | omega | linarith
  · rw [stageFromGrowth_unfold g, stageFromGrowth_unfold g2]
    split_ifs <;> first | omega | linarith

theorem C4_witness :
    ((0 : ℚ) ≤ 150 ∧ (150 : ℚ) ≤ 151) ∧
    ((stageNeed (stageFromGrowth 150) ≤ 150 ∧
      ∀ i, i < STAGES.length → stageNeed i ≤ (150 : ℚ) → i ≤ stageFromGrowth 150) ∧
    stageFromGrowth 150 = 4 ∧
    stageFromGrowth (150 : ℚ) ≤ stageFromGrowth 151) :=
  ⟨by constructor <;> norm_num, C4_stage_characterization 150 151 (by norm_num) (by norm_num)⟩

theorem growth_le_nextStageNeed (g : ℚ) (hg : 0 ≤ g)
    (h : stageFromGrowth g ≠ STAGES.length - 1) : g ≤ nextStageNeed g := by
  unfold nextStageNeed
  rw [stageFromGrowth_unfold] at h ⊢
  split_ifs at h ⊢ <;>
    simp_all [stageNeed, STAGES] <;> linarith

/-- C5: for every valid PlantState and current time, the next-stage
display is `Max stage` at the last stage index; the needs-care indication
when the recomputed instantaneous rate is ≤ 0.2; and otherwise the
duration (next threshold − growth)/rate hours converted to
milliseconds. -/
theorem C5_eta_display (s : PlantState) (t : ℚ) (hg : 0 ≤ s.growth) :
    (stageFromGrowth s.growth = STAGES.length - 1 →
      etaDisplay s t = EtaDisplay.maxStage) ∧
    (stageFromGrowth s.growth ≠ STAGES.length - 1 → renderRate s t ≤ 0.2 →
      etaDisplay s t = EtaDisplay.needsCare) ∧
    (stageFromGrowth s.growth ≠ STAGES.length - 1 → 0.2 < renderRate s t →
      etaDisplay s t = EtaDisplay.eta
        ((nextStageNeed s.growth - s.growth) / renderRate s t * 3600 * 1000)) := by
  refine ⟨?_, ?_, ?_⟩
  · intro h
    simp only [etaDisplay]
    rw [if_pos h]
  · intro h hr
    simp only [etaDisplay]
    rw [if_neg h, if_neg (not_lt.mpr hr)]
  · intro h hr
    simp only [etaDisplay]
    rw [if_neg h, if_pos hr,
      max_eq_right (sub_nonneg.mpr (growth_le_nextStageNeed s.growth hg h))]

theorem C5_witness :
    (0 : ℚ) ≤ (newPlant 0).growth ∧
    ((stageFromGrowth (newPlant 0).growth = STAGES.length - 1 →
      etaDisplay (newPlant 0) 0 = EtaDisplay.maxStage) ∧
    (stageFromGrowth (newPlant 0).growth ≠ STAGES.length - 1 →
      renderRate (newPlant 0) 0 ≤ 0.2 →
      etaDisplay (newPlant 0) 0 = EtaDisplay.needsCare) ∧
    (stageFromGrowth (newPlant 0).growth ≠ STAGES.length - 1 →
      0.2 < renderRate (newPlant 0) 0 →
      etaDisplay (newPlant 0) 0 = EtaDisplay.eta
        ((nextStageNeed (newPlant 0).growth - (newPlant 0).growth) /
          renderRate (newPlant 0) 0 * 3600 * 1000))) :=
  ⟨by norm_num [newPlant], C5_eta_display (newPlant 0) 0 (by norm_num [newPlant])⟩

/-- C6: drawPlant is a function of the stage index and the state fields it
reads — createdAt (the vine-RNG seed), health and hydration — so two calls
with identical (stageIndex, state) inputs, in particular the same
createdAt, produce the identical scene, vine geometry included. -/
theorem C6_render_deterministic (stageIdx : ℕ) (s1 s2 : PlantState)
    (hc : s1.createdAt = s2.createdAt) (hh : s1.health = s2.health)
    (hy : s1.hydration = s2.hydration) :
    drawPlant stageIdx s1 = drawPlant stageIdx s2 := by
  simp only [drawPlant, hc, hh, hy]

theorem C6_witness :
    ((newPlant 0).createdAt =
        ({ newPlant 0 with growth := 999 } : PlantState).createdAt ∧
      (newPlant 0).health =
        ({ newPlant 0 with growth := 999 } : PlantState).health ∧
      (newPlant 0).hydration =
        ({ newPlant 0 with growth := 999 } : PlantState).hydration) ∧
    drawPlant 4 (newPlant 0) =
      drawPlant 4 { newPlant 0 with growth := 999 } :=
  ⟨⟨rfl, rfl, rfl⟩,
   C6_render_deterministic 4 (newPlant 0) { newPlant 0 with growth := 999 }
     rfl rfl rfl⟩

/-- C7: tick with zero elapsed wall time (current instant equal to
lastTickAt) leaves hydration, health and growth — and every other field —
unchanged; lastTickAt is rewritten to the same instant, so it does not
move backward. -/
theorem C7_zero_elapsed_tick (s : PlantState) (timeScale : ℚ)
    (hh0 : 0 ≤ s.hydration) (hh1 : s.hydration ≤ 100)
    (he0 : 0 ≤ s.health) (he1 : s.health ≤ 100) (hg : 0 ≤ s.growth) :
    (tick s timeScale s.lastTickAt).hydration = s.hydration ∧
    (tick s timeScale s.lastTickAt).health = s.health ∧
    (tick s timeScale s.lastTickAt).growth = s.growth ∧
    (tick s timeScale s.lastTickAt).lastTickAt = s.lastTickAt ∧
    s.lastTickAt ≤ (tick s timeScale s.lastTickAt).lastTickAt ∧
    (tick s timeScale s.lastTickAt).createdAt = s.createdAt ∧
    (tick s timeScale s.lastTickAt).lastActionAt = s.lastActionAt ∧
    (tick s timeScale s.lastTickAt).sunlightBoostUntil =
      s.sunlightBoostUntil := by
  have h0 : max 0 (s.lastTickAt - s.lastTickAt) * timeScale /
      (1000 * 60 * 60) = 0 := by simp
  refine ⟨?_, ?_, ?_, rfl, le_refl _, rfl, rfl, rfl⟩ <;>
    simp only [tick, h0, zero_mul, mul_zero, sub_zero, add_zero, zero_add]
  · exact clamp_of_mem _ _ _ hh0 hh1
  · exact clamp_of_mem _ _ _ he0 he1
  · exact max_eq_right hg

theorem C7_witness :
    ((0 : ℚ) ≤ (newPlant 5).hydration ∧ (newPlant 5).hydration ≤ 100 ∧
      (0 : ℚ) ≤ (newPlant 5).health ∧ (newPlant 5).health ≤ 100 ∧
      (0 : ℚ) ≤ (newPlant 5).growth) ∧
    ((tick (newPlant 5) 60 (newPlant 5).lastTickAt).hydration =
        (newPlant 5).hydration ∧
      (tick (newPlant 5) 60 (newPlant 5).lastTickAt).health =
        (newPlant 5).health ∧
      (tick (newPlant 5) 60 (newPlant 5).lastTickAt).growth =
        (newPlant 5).growth ∧
      (tick (newPlant 5) 60 (newPlant 5).lastTickAt).lastTickAt =
        (newPlant 5).lastTickAt ∧
      (newPlant 5).lastTickAt ≤
        (tick (newPlant 5) 60 (newPlant 5).lastTickAt).lastTickAt ∧
      (tick (newPlant 5) 60 (newPlant 5).lastTickAt).createdAt =
        (newPlant 5).createdAt ∧
      (tick (newPlant 5) 60 (newPlant 5).lastTickAt).lastActionAt =
        (newPlant 5).lastActionAt ∧
      (tick (newPlant 5) 60 (newPlant 5).lastTickAt).sunlightBoostUntil =
        (newPlant 5).sunlightBoostUntil) :=
  ⟨by refine ⟨?_, ?_, ?_, ?_, ?_⟩ <;> norm_num [newPlant],
   C7_zero_elapsed_tick (newPlant 5) 60 (by norm_num [newPlant])
     (by norm_num [newPlant]) (by norm_num [newPlant])
     (by norm_num [newPlant]) (by norm_num [newPlant])⟩

/-- C8 counterexample: at health = 35 — a value the claim's 35–60 band
assigns the stressed pair — drawPlant's strict comparison selects the
wilting pair, which differs from the stressed pair. -/
theorem C8_counterexample :
    (greenColor 35, darkColor 35) = ("#d6c56b", "#9a8e39") ∧
    (("#d6c56b", "#9a8e39") : String × String) ≠ ("#b6df5a", "#7aa63b") := by
  constructor
  · norm_num [greenColor, darkColor]
  · decide

/-- C8 amended: for health in [0,100] the color bands are health > 60
(lush), 35 < health ≤ 60 (stressed) and health ≤ 35 (wilting) — the
boundary value 35 falls in the wilting band — and the three stem/leaf
pairs are pairwise distinct. -/
theorem C8_health_bands (h : ℚ) (h0 : 0 ≤ h) (h1 : h ≤ 100) :
    (60 < h → (greenColor h, darkColor h) = ("#68e36b", "#2ea84a")) ∧
    (35 < h → h ≤ 60 → (greenColor h, darkColor h) = ("#b6df5a", "#7aa63b")) ∧
    (h ≤ 35 → (greenColor h, darkColor h) = ("#d6c56b", "#9a8e39")) ∧
    (("#68e36b", "#2ea84a") : String × String) ≠ ("#b6df5a", "#7aa63b") ∧
    (("#b6df5a", "#7aa63b") : String × String) ≠ ("#d6c56b", "#9a8e39") ∧
    (("#68e36b", "#2ea84a") : String × String) ≠ ("#d6c56b", "#9a8e39") := by
  refine ⟨?_, ?_, ?_, by decide, by decide, by decide⟩
  · intro hl
    simp only [greenColor, darkColor]
    rw [if_pos hl, if_pos hl]
  · intro ha hb
    simp only [greenColor, darkColor]
    rw [if_neg (not_lt.mpr hb), if_pos ha, if_neg (not_lt.mpr hb), if_pos ha]
  · intro hw
    simp only [greenColor, darkColor]
    rw [if_neg (not_lt.mpr (hw.trans (by norm_num))),
      if_neg (not_lt.mpr hw), if_neg (not_lt.mpr (hw.trans (by norm_num))),
      if_neg (not_lt.mpr hw)]

theorem C8_witness :
    ((0 : ℚ) ≤ 50 ∧ (50 : ℚ) ≤ 100) ∧
    (((60 : ℚ) < 50 → (greenColor 50, darkColor 50) = ("#68e36b", "#2ea84a")) ∧
    ((35 : ℚ) < 50 → (50 : ℚ) ≤ 60 →
      (greenColor 50, darkColor 50) = ("#b6df5a", "#7aa63b")) ∧
    ((50 : ℚ) ≤ 35 → (greenColor 50, darkColor 50) = ("#d6c56b", "#9a8e39")) ∧
    (("#68e36b", "#2ea84a") : String × String) ≠ ("#b6df5a", "#7aa63b") ∧
    (("#b6df5a", "#7aa63b") : String × String) ≠ ("#d6c56b", "#9a8e39") ∧
    (("#68e36b", "#2ea84a") : String × String) ≠ ("#d6c56b", "#9a8e39")) :=
  ⟨by norm_num, C8_health_bands 50 (by norm_num) (by norm_num)⟩

theorem ite_sublist_of_imp {α : Type} (c d : Prop) [Decidable c]
    [Decidable d] (h : c → d) (l : List α) :
    (if c then l else []).Sublist (if d then l else []) := by
  by_cases hc : c
  · rw [if_pos hc, if_pos (h hc)]
  · rw [if_neg hc]
    exact List.nil_sublist _

/-- C9 counterexample: at stage index 1 the text renderer already places
leaf cells while the pixel renderer places none — so leaves do not appear
at the thresholds 2, 3, 4 in both modes. -/
theorem C9_counterexample :
    asciiLeafCells 1 ≠ [] ∧ leafPixels 1 "#68e36b" = [] := by
  constructor
  · decide
  · decide

/-- C9 amended: the pixel renderer adds leaves exactly from stage ≥ 2
(then ≥ 3, ≥ 4) while the text renderer adds them from stage ≥ 1 (then
≥ 2, ≥ 3); in both modes each threshold adds a left leaf then a right
leaf (dir −1 then 1), and the placed leaf cells at a lower stage are a
sublist of those at any higher stage (never removed). -/
theorem C9_leaf_thresholds (green : String) (i j : ℕ) (hij : i ≤ j) :
    ((leafPixels i green ≠ []) ↔ 2 ≤ i) ∧
    ((asciiLeafCells i ≠ []) ↔ 1 ≤ i) ∧
    (leafPixels i green).Sublist (leafPixels j green) ∧
    (asciiLeafCells i).Sublist (asciiLeafCells j) ∧
    (4 ≤ i → leafPixels i green =
      addLeaf 11 12 (-1) green ++ addLeaf 11 11 1 green ++
      addLeaf 11 10 (-1) green ++ addLeaf 11 9 1 green ++
      addLeaf 11 8 (-1) green ++ addLeaf 11 7 1 green) ∧
    (3 ≤ i → asciiLeafCells i =
      asciiLeaf 11 (-1) ++ asciiLeaf 10 1 ++ asciiLeaf 9 (-1) ++
      asciiLeaf 8 1 ++ asciiLeaf 7 (-1) ++ asciiLeaf 6 1) := by
  refine ⟨?_, ?_, ?_, ?_, ?_, ?_⟩
  · constructor
    · intro hne
      by_contra hlt
      apply hne
      have h2 : ¬ 2 ≤ i := hlt
      have h3 : ¬ 3 ≤ i := by omega
      have h4 : ¬ 4 ≤ i := by omega
      simp [leafPixels, h2, h3, h4]
    · intro h2
      simp [leafPixels, h2, addLeaf]
  · constructor
    · intro hne
      by_contra hlt
      apply hne
      have h1 : ¬ 1 ≤ i := hlt
      have h2 : ¬ 2 ≤ i := by omega
      have h3 : ¬ 3 ≤ i := by omega
      simp [asciiLeafCells, h1, h2, h3]
    · intro h1
      simp [asciiLeafCells, h1, asciiLeaf]
  · exact List.Sublist.append
      (List.Sublist.append
        (ite_sublist_of_imp _ _ (fun h => h.trans hij) _)
        (ite_sublist_of_imp _ _ (fun h => h.trans hij) _))
      (ite_sublist_of_imp _ _ (fun h => h.trans hij) _)
  · exact List.Sublist.append
      (List.Sublist.append
        (ite_sublist_of_imp _ _ (fun h => h.trans hij) _)
        (ite_sublist_of_imp _ _ (fun h => h.trans hij) _))
      (ite_sublist_of_imp _ _ (fun h => h.trans hij) _)
  · intro h4
    have h2 : 2 ≤ i := by omega
    have h3 : 3 ≤ i := by omega
    simp [leafPixels, h2, h3, h4, List.append_assoc]
  · intro h3
    have h1 : 1 ≤ i := by omega
    have h2 : 2 ≤ i := by omega
    simp [asciiLeafCells, h1, h2, h3, List.append_assoc]

theorem C9_witness :
    (1 : ℕ) ≤ 4 ∧
    (((leafPixels 1 "#68e36b" ≠ []) ↔ 2 ≤ 1) ∧
    ((asciiLeafCells 1 ≠ []) ↔ 1 ≤ 1) ∧
    (leafPixels 1 "#68e36b").Sublist (leafPixels 4 "#68e36b") ∧
    (asciiLeafCells 1).Sublist (asciiLeafCells 4) ∧
    (4 ≤ 1 → leafPixels 1 "#68e36b" =
      addLeaf 11 12 (-1) "#68e36b" ++ addLeaf 11 11 1 "#68e36b" ++
      addLeaf 11 10 (-1) "#68e36b" ++ addLeaf 11 9 1 "#68e36b" ++
      addLeaf 11 8 (-1) "#68e36b" ++ addLeaf 11 7 1 "#68e36b") ∧
    (3 ≤ 1 → asciiLeafCells 1 =
      asciiLeaf 11 (-1) ++ asciiLeaf 10 1 ++ asciiLeaf 9 (-1) ++
      asciiLeaf 8 1 ++ asciiLeaf 7 (-1) ++ asciiLeaf 6 1)) :=
  ⟨by omega, C9_leaf_thresholds "#68e36b" 1 4 (by omega)⟩

/-- C10 counterexample: the persisted record "42" is well-formed JSON but
does not represent a PlantState, yet startup uses the parsed number as the
state instead of substituting a fresh plant. -/
theorem C10_counterexample :
    startupState (some "42") jsonParseFrag 0 = Sum.inl (JsValue.num 42) ∧
    startupState (some "42") jsonParseFrag 0 ≠ Sum.inr (newPlant 0) :=
  ⟨rfl, fun h => Sum.noConfusion h⟩

/-- C10 amended: a missing record, an unreadable/malformed record (parse
failure), and a record parsing to a JSON-falsy value are all treated as
absent and replaced by a freshly created PlantState, with no error
surfaced; a record parsing to a truthy JSON value, however, is used as the
state without validation. -/
theorem C10_fallback_on_invalid (store : Option String)
    (parse : String → Except Unit JsValue) (t : ℚ)
    (h : ∀ v, loadState store parse = some v → jsTruthy v = false) :
    startupState store parse t = Sum.inr (newPlant t) := by
  unfold startupState
  cases hl : loadState store parse with
  | none => rfl
  | some v => simp [h v hl]

theorem C10_witness :
    (∀ v, loadState (some "null") jsonParseFrag = some v →
      jsTruthy v = false) ∧
    startupState (some "null") jsonParseFrag 0 = Sum.inr (newPlant 0) := by
  have hfalsy : ∀ v, loadState (some "null") jsonParseFrag = some v →
      jsTruthy v = false := by
    intro v h
    rw [show loadState (some "null") jsonParseFrag = some JsValue.null
      from rfl] at h
    cases h
    rfl
  exact ⟨hfalsy, C10_fallback_on_invalid (some "null") jsonParseFrag 0 hfalsy⟩

end VirtualPlant
